import Mathlib

/-!
Verification development for the ai-code-review-bot backend.

Text is modelled as `List Char` (`Chars`), mirroring Python `str` as a
sequence of characters.  Python library functions used by the code
(`str.strip`, `str.lower`, `str.startswith`, `json.loads`, substring
tests) are modelled below; the repository's own functions
(`CodeReviewService.analyze_code`, `_clean_content`, `_handle_exception`,
`exceptions.py` constructors, `review_code`, the provider selector, the
Gemini model initialisation and the HuggingFace retry logic) are
translated directly from the source.
-/

/-- Python `str` modelled as a list of characters. -/
abbrev Chars := List Char

/-- Coerce a Lean string literal to the character-list model. -/
def s2l (s : String) : Chars := s.data

/-- The single-quote character (used to build Python message strings
without apostrophes in Lean literals). -/
def sqm : Chars := [Char.ofNat 39]

/-- Opening curly brace character. -/
def lbrace : Char := Char.ofNat 123

/-- Closing curly brace character. -/
def rbrace : Char := Char.ofNat 125

/-- Python `str.lower` (ASCII case fold, which covers every message the
code inspects). -/
def lowerStr (s : Chars) : Chars := s.map Char.toLower

/-- Drop elements satisfying `p` from the end of a list. -/
def dropEndWhile (p : Char → Bool) (l : Chars) : Chars :=
  (l.reverse.dropWhile p).reverse

/-- Python `str.strip(chars)`: remove every character contained in
`set` from both ends of the string. -/
def pyStripChars (set : Chars) (l : Chars) : Chars :=
  dropEndWhile (fun c => set.contains c) (l.dropWhile (fun c => set.contains c))

/-- The characters Python `str.strip()` removes (ASCII whitespace). -/
def pyWs : Chars := s2l " \t\n\r\x0b\x0c"

/-- Python `str.strip()` with no argument. -/
def pyStripWs (l : Chars) : Chars := pyStripChars pyWs l

/-- Python `str.startswith(p)`. -/
def startsWithL (l p : Chars) : Bool := p.isPrefixOf l

/-- Python `needle in hay` substring test. -/
def hasSub (n : Chars) : Chars → Bool
  | [] => n.isEmpty
  | c :: t => n.isPrefixOf (c :: t) || hasSub n t

/-- `needle in hay.lower()` — the case-insensitive containment used by
the error classifier. -/
def hasSubCI (n hay : Chars) : Bool := hasSub n (lowerStr hay)

/-! ### JSON values

`JVal` models the Python values produced by `json.loads`: `None`, `bool`,
numbers, `str`, `list` and `dict` (association list in insertion order,
later duplicate keys overwriting in place exactly as Python `dict` does).
Numbers are stored as `JNum`: the value `mant * 10 ^ exp10` together with
the Python `int`-versus-`float` tag (a number literal is an `int` exactly
when it has no fraction and no exponent part). -/

structure JNum where
  isInt : Bool
  mant : Int
  exp10 : Int
deriving DecidableEq

/-- An integer-valued `JNum`. -/
def jint (n : Int) : JNum := ⟨true, n, 0⟩

/-- Comparison of `JNum` values (cross-multiplied by the exponent gap, so
it is the numeric `≤` of the represented rationals). -/
def jnumLe (a b : JNum) : Bool :=
  let d : Int := a.exp10 - b.exp10
  if 0 ≤ d then a.mant * (10 : Int) ^ d.toNat ≤ b.mant
  else a.mant ≤ b.mant * (10 : Int) ^ (-d).toNat

/-- Addition of `JNum` values (Python `+`; `int + int` is an `int`). -/
def jnumAdd (a b : JNum) : JNum :=
  let d : Int := a.exp10 - b.exp10
  if 0 ≤ d then ⟨a.isInt && b.isInt, a.mant * (10 : Int) ^ d.toNat + b.mant, b.exp10⟩
  else ⟨a.isInt && b.isInt, a.mant + b.mant * (10 : Int) ^ (-d).toNat, a.exp10⟩

/-- Python `min` on two numbers. -/
def jnumMin (a b : JNum) : JNum := if jnumLe a b then a else b

inductive JVal where
  | null : JVal
  | bool : Bool → JVal
  | num : JNum → JVal
  | str : Chars → JVal
  | arr : List JVal → JVal
  | obj : List (Chars × JVal) → JVal

/-- Python `dict` lookup on the parsed object (keys are unique by
construction of the parser). -/
def objGet (kvs : List (Chars × JVal)) (k : Chars) : Option JVal :=
  (kvs.find? (fun p => p.1 == k)).map (·.2)

/-- Python type name of a parsed JSON value, as it appears in
`AttributeError` messages. -/
def pyTypeName : JVal → Chars
  | .null => s2l "NoneType"
  | .bool _ => s2l "bool"
  | .num n => if n.isInt then s2l "int" else s2l "float"
  | .str _ => s2l "str"
  | .arr _ => s2l "list"
  | .obj _ => s2l "dict"

/-- The message of Python `AttributeError` raised by `x.get(...)` when
`x` is not a dict. -/
def attrGetMsg (ty : Chars) : Chars :=
  sqm ++ ty ++ sqm ++ s2l " object has no attribute " ++ sqm ++ s2l "get" ++ sqm

/-- The message of Python `AttributeError` raised by `x.strip()` when
`x` is not a string. -/
def attrStripMsg (ty : Chars) : Chars :=
  sqm ++ ty ++ sqm ++ s2l " object has no attribute " ++ sqm ++ s2l "strip" ++ sqm

/-! ### JSON parser (model of `json.loads`)

A recursive-descent parser over `Chars` driven by structural fuel, so
every definition reduces in the kernel.  Error messages follow Python's
`json` module but omit line/column positions.  `\uXXXX` escapes are
decoded code-unit-wise (surrogate pairs are not merged). -/

/-- JSON whitespace (the only characters `json.loads` skips). -/
def jsonWs (c : Char) : Bool := c == ' ' || c == '\t' || c == '\n' || c == '\r'

/-- Skip JSON whitespace. -/
def skipWs (l : Chars) : Chars := l.dropWhile jsonWs

/-- Hex digit value (decimal digits, then the two letter ranges by code
point). -/
def hexVal (c : Char) : Option Nat :=
  let n := c.toNat
  if 48 ≤ n && n ≤ 57 then some (n - 48)
  else if 97 ≤ n && n ≤ 102 then some (n - 87)
  else if 65 ≤ n && n ≤ 70 then some (n - 55)
  else none

/-- The two-character escape table of the JSON grammar (escape letter
paired with the decoded code point). -/
def escTable : List (Char × Nat) :=
  [('"', 34), ('\\', 92), ('/', 47), ('b', 8), ('f', 12), ('n', 10), ('r', 13), ('t', 9)]

/-- Simple escape characters accepted after a backslash. -/
def escChar (c : Char) : Option Char :=
  (escTable.find? (fun p => p.1 == c)).map (fun p => Char.ofNat p.2)

/-- Parse the body of a JSON string after the opening quote.  Returns the
decoded characters and the remaining input. -/
def parseStringBody : Nat → Chars → Except Chars (Chars × Chars)
  | 0, _ => .error (s2l "Unterminated string")
  | _ + 1, [] => .error (s2l "Unterminated string")
  | f + 1, c :: rest =>
    if c == '"' then .ok ([], rest)
    else if c == '\\' then
      match rest with
      | [] => .error (s2l "Unterminated string")
      | e :: rest2 =>
        if e == 'u' then
          match rest2 with
          | h1 :: h2 :: h3 :: h4 :: rest3 =>
            match hexVal h1, hexVal h2, hexVal h3, hexVal h4 with
            | some a, some b, some c1, some d =>
              match parseStringBody f rest3 with
              | .ok (s, r) => .ok (Char.ofNat (((a * 16 + b) * 16 + c1) * 16 + d) :: s, r)
              | .error err => .error err
            | _, _, _, _ => .error (s2l "Invalid \\uXXXX escape")
          | _ => .error (s2l "Invalid \\uXXXX escape")
        else
          match escChar e with
          | some ch =>
            match parseStringBody f rest2 with
            | .ok (s, r) => .ok (ch :: s, r)
            | .error err => .error err
          | none => .error (s2l "Invalid \\escape")
    else
      match parseStringBody f rest with
      | .ok (s, r) => .ok (c :: s, r)
      | .error err => .error err

/-- Digits to a natural number. -/
def digitsToNat (ds : Chars) : Nat :=
  ds.foldl (fun acc c => acc * 10 + (c.toNat - '0'.toNat)) 0

/-- Parse a JSON number (Python `json` grammar: `-?(0|[1-9]\d*)(\.\d+)?([eE][+-]?\d+)?`);
any shorter match leaves the rest of the input in place. -/
def parseNumber (s : Chars) : Except Chars (JVal × Chars) :=
  let (neg, s1) := match s with
    | '-' :: t => (true, t)
    | _ => (false, s)
  let intFrac : Option (Chars × Chars) := match s1 with
    | '0' :: t => some (['0'], t)
    | c :: _ =>
      if c.isDigit then
        some (s1.takeWhile Char.isDigit, s1.dropWhile Char.isDigit)
      else none
    | [] => none
  match intFrac with
  | none => .error (s2l "Expecting value")
  | some (intDs, s2) =>
    let (fracDs, s3) : Chars × Chars := match s2 with
      | '.' :: d :: t =>
        if d.isDigit then ((d :: t).takeWhile Char.isDigit, (d :: t).dropWhile Char.isDigit)
        else ([], s2)
      | _ => ([], s2)
    let (expNeg, expDs, s4) : Bool × Chars × Chars := match s3 with
      | e :: rest =>
        if e == 'e' || e == 'E' then
          match rest with
          | '+' :: d :: t =>
            if d.isDigit then (false, (d :: t).takeWhile Char.isDigit, (d :: t).dropWhile Char.isDigit)
            else (false, [], s3)
          | '-' :: d :: t =>
            if d.isDigit then (true, (d :: t).takeWhile Char.isDigit, (d :: t).dropWhile Char.isDigit)
            else (false, [], s3)
          | d :: t =>
            if d.isDigit then (false, (d :: t).takeWhile Char.isDigit, (d :: t).dropWhile Char.isDigit)
            else (false, [], s3)
          | [] => (false, [], s3)
        else (false, [], s3)
      | [] => (false, [], s3)
    let mantNat : Nat := digitsToNat (intDs ++ fracDs)
    let mant : Int := if neg then -(mantNat : Int) else (mantNat : Int)
    let expPart : Int := if expNeg then -(digitsToNat expDs : Int) else (digitsToNat expDs : Int)
    let isInt : Bool := fracDs.isEmpty && expDs.isEmpty
    .ok (.num ⟨isInt, mant, expPart - (fracDs.length : Int)⟩, s4)

/-- Python `dict` insertion: a repeated key overwrites in place, a new
key is appended. -/
def pyInsert (kvs : List (Chars × JVal)) (k : Chars) (v : JVal) : List (Chars × JVal) :=
  if kvs.any (fun p => p.1 == k) then
    kvs.map (fun p => if p.1 == k then (p.1, v) else p)
  else kvs ++ [(k, v)]

/-- Message `Expecting ',' delimiter`. -/
def msgExpComma : Chars := s2l "Expecting " ++ sqm ++ [','] ++ sqm ++ s2l " delimiter"

/-- Message `Expecting ':' delimiter`. -/
def msgExpColon : Chars := s2l "Expecting " ++ sqm ++ [':'] ++ sqm ++ s2l " delimiter"

/-- Parse the elements of an array after the opening bracket (the empty
array is handled by the caller).  `pv` parses one value. -/
def parseElemsStep (pv : Chars → Except Chars (JVal × Chars)) :
    Nat → Chars → List JVal → Except Chars (JVal × Chars)
  | 0, _, _ => .error (s2l "Expecting value")
  | f + 1, s, acc =>
    match pv (skipWs s) with
    | .error e => .error e
    | .ok (v, r) =>
      match skipWs r with
      | ',' :: r3 => parseElemsStep pv f r3 (acc ++ [v])
      | ']' :: r3 => .ok (.arr (acc ++ [v]), r3)
      | _ => .error msgExpComma

/-- Parse the members of an object after the opening brace (the empty
object is handled by the caller). -/
def parseMembersStep (pv : Chars → Except Chars (JVal × Chars)) :
    Nat → Chars → List (Chars × JVal) → Except Chars (JVal × Chars)
  | 0, _, _ => .error (s2l "Expecting property name enclosed in double quotes")
  | f + 1, s, acc =>
    match skipWs s with
    | '"' :: kr =>
      match parseStringBody (kr.length + 1) kr with
      | .error e => .error e
      | .ok (k, r1) =>
        match skipWs r1 with
        | ':' :: r2 =>
          match pv (skipWs r2) with
          | .error e => .error e
          | .ok (v, r3) =>
            match skipWs r3 with
            | ',' :: r4 => parseMembersStep pv f r4 (pyInsert acc k v)
            | c :: r4 =>
              if c == rbrace then .ok (.obj (pyInsert acc k v), r4)
              else .error msgExpComma
            | [] => .error msgExpComma
        | _ => .error msgExpColon
    | _ => .error (s2l "Expecting property name enclosed in double quotes")

/-- Parse one JSON value.  The fuel bounds the nesting depth; callers
supply at least `input length + 1`, which always suffices because every
nesting level consumes at least one character. -/
def parseValueF : Nat → Chars → Except Chars (JVal × Chars)
  | 0, _ => .error (s2l "Expecting value")
  | f + 1, s =>
    match s with
    | [] => .error (s2l "Expecting value")
    | c :: rest =>
      if c == '"' then
        match parseStringBody (rest.length + 1) rest with
        | .ok (str, r) => .ok (.str str, r)
        | .error e => .error e
      else if c == lbrace then
        match skipWs rest with
        | c2 :: r2 =>
          if c2 == rbrace then .ok (.obj [], r2)
          else parseMembersStep (parseValueF f) (rest.length + 1) rest []
        | [] => .error (s2l "Expecting property name enclosed in double quotes")
      else if c == '[' then
        match skipWs rest with
        | ']' :: r2 => .ok (.arr [], r2)
        | _ => parseElemsStep (parseValueF f) (rest.length + 1) rest []
      else if c == 'n' then
        if (s2l "null").isPrefixOf s then .ok (.null, s.drop 4)
        else .error (s2l "Expecting value")
      else if c == 't' then
        if (s2l "true").isPrefixOf s then .ok (.bool true, s.drop 4)
        else .error (s2l "Expecting value")
      else if c == 'f' then
        if (s2l "false").isPrefixOf s then .ok (.bool false, s.drop 5)
        else .error (s2l "Expecting value")
      else if c == '-' || c.isDigit then
        parseNumber s
      else .error (s2l "Expecting value")

/-- Model of Python `json.loads`: skip surrounding whitespace, parse one
value, and reject trailing data. -/
def jsonLoads (s : Chars) : Except Chars JVal :=
  let t := dropEndWhile jsonWs (s.dropWhile jsonWs)
  match parseValueF (t.length + 1) t with
  | .error e => .error e
  | .ok (v, r) => if (skipWs r).isEmpty then .ok v else .error (s2l "Extra data")

/-! ### Error taxonomy (`exceptions.py`)

`HTTPErr` models `fastapi.HTTPException`: a status code plus a detail
that is either a plain string or the dict of `error`/`message`/`help`
(and, for the quota case only, `docs`) fields built by the
`create_*_exception` constructors. -/

inductive HDetail where
  | plain : Chars → HDetail
  | fields : Chars → Chars → Chars → Option Chars → HDetail

structure HTTPErr where
  status : Nat
  detail : HDetail

/-- `create_quota_exception` from `exceptions.py`. -/
def createQuotaExc : HTTPErr :=
  ⟨402, .fields (s2l "OpenAI API Quota Exceeded")
    (s2l "You have exceeded your OpenAI API quota. Please check your plan and billing details.")
    (s2l "Visit https://platform.openai.com/account/billing to add credits or upgrade your plan.")
    (some (s2l "https://platform.openai.com/docs/guides/error-codes/api-errors"))⟩

/-- `create_rate_limit_exception` from `exceptions.py`. -/
def createRateLimitExc : HTTPErr :=
  ⟨429, .fields (s2l "Rate Limit Exceeded")
    (s2l "Too many requests. Please wait a moment and try again.")
    (s2l "The API has rate limits. Please wait before making another request.")
    none⟩

/-- The `provider_configs` table of `create_authentication_exception`:
display name, credential variable and help URL per provider id, with the
`("Unknown", "API_KEY", "")` default. -/
def providerConfigs (provider : Chars) : Chars × Chars × Chars :=
  if provider = s2l "openai" then
    (s2l "OpenAI", s2l "OPENAI_API_KEY", s2l "https://platform.openai.com/api-keys")
  else if provider = s2l "huggingface" then
    (s2l "Hugging Face", s2l "HUGGINGFACE_API_KEY", s2l "https://huggingface.co/settings/tokens")
  else if provider = s2l "groq" then
    (s2l "Groq", s2l "GROQ_API_KEY", s2l "https://console.groq.com/keys")
  else if provider = s2l "gemini" then
    (s2l "Google Gemini", s2l "GEMINI_API_KEY", s2l "https://makersuite.google.com/app/apikey")
  else (s2l "Unknown", s2l "API_KEY", [])

/-- `create_authentication_exception` from `exceptions.py`. -/
def createAuthExc (provider : Chars) : HTTPErr :=
  let cfg := providerConfigs provider
  ⟨401, .fields (cfg.1 ++ s2l " API Authentication Failed")
    (s2l "Invalid API key. Please check your " ++ cfg.2.1 ++ s2l " in the backend/.env file.")
    (s2l "Get your API key from " ++ cfg.2.2)
    none⟩

/-- `create_generic_api_exception` from `exceptions.py`. -/
def createGenericApiExc (message : Chars) : HTTPErr :=
  ⟨502, .fields (s2l "OpenAI API Error") message
    (s2l "There was an issue with the OpenAI API. Please try again later.")
    none⟩

/-- `create_unexpected_exception` from `exceptions.py`. -/
def createUnexpectedExc (message : Chars) : HTTPErr :=
  ⟨500, .fields (s2l "Unexpected Error")
    (s2l "An unexpected error occurred: " ++ message)
    (s2l "Please check the server logs for more details.")
    none⟩

/-- `CodeReviewService._handle_exception`: lower-case the failure text,
test the keyword groups in order, and raise the first matching
categorized exception.  It never returns normally: the result is always
an `HTTPErr`. -/
def handleException (provider emsg : Chars) : HTTPErr :=
  let m := lowerStr emsg
  if hasSub (s2l "quota") m || hasSub (s2l "billing") m || hasSub (s2l "exceeded") m then
    createQuotaExc
  else if hasSub (s2l "rate limit") m || hasSub (s2l "too many requests") m then
    createRateLimitExc
  else if hasSub (s2l "authentication") m
      || (hasSub (s2l "invalid") m && hasSub (s2l "key") m)
      || hasSub (s2l "unauthorized") m then
    createAuthExc provider
  else if hasSub (s2l "api error") m || hasSub (s2l "api") m then
    createGenericApiExc emsg
  else
    createUnexpectedExc emsg

/-! ### Spec-side classifier (§4.4 of the specification)

`specClassify` is written from the specification's words — five rules
tested in priority order, first match wins — so that the code's
`handleException` can be proved equivalent to it. -/

inductive ErrCat where
  | quota | rateLimited | authFailed | upstreamApi | unexpected
deriving DecidableEq

/-- The five substring rules of spec §4.4, one predicate per category
(case-insensitive containment is applied to the already-lowered text). -/
def specRuleHolds : ErrCat → Chars → Bool
  | .quota, m => hasSub (s2l "quota") m || hasSub (s2l "billing") m || hasSub (s2l "exceeded") m
  | .rateLimited, m => hasSub (s2l "rate limit") m || hasSub (s2l "too many requests") m
  | .authFailed, m => hasSub (s2l "authentication") m
      || (hasSub (s2l "invalid") m && hasSub (s2l "key") m)
      || hasSub (s2l "unauthorized") m
  | .upstreamApi, m => hasSub (s2l "api") m
  | .unexpected, _ => true

/-- The spec's priority order. -/
def specPriority : List ErrCat :=
  [.quota, .rateLimited, .authFailed, .upstreamApi, .unexpected]

/-- First rule that matches, in priority order (total because the last
rule always holds). -/
def specClassify (emsg : Chars) : ErrCat :=
  (specPriority.find? (fun c => specRuleHolds c (lowerStr emsg))).getD .unexpected

/-- The categorized exception each spec category surfaces as (the status
table of spec §6). -/
def catToExc (provider emsg : Chars) : ErrCat → HTTPErr
  | .quota => createQuotaExc
  | .rateLimited => createRateLimitExc
  | .authFailed => createAuthExc provider
  | .upstreamApi => createGenericApiExc emsg
  | .unexpected => createUnexpectedExc emsg

/-! ### Response normalizer (`CodeReviewService.analyze_code`)

The provider call itself is an outbound network action; its outcome is
passed in as `Except Chars Chars` (failure message or raw reply text).
Everything after that point is translated from
`services/code_review_service.py`. -/

/-- `CodeReviewService._clean_content`: if the reply starts with three
backticks, apply `content.strip("```json").strip("```").strip()`.
Note that Python `str.strip(chars)` removes a character *set*, not the
literal prefix/suffix. -/
def cleanContent (content : Chars) : Chars :=
  if startsWithL content (s2l "```") then
    pyStripWs (pyStripChars (s2l "```") (pyStripChars (s2l "```json") content))
  else content

/-- The dict literal `analyze_code` returns: it always carries exactly
the four keys `summary`, `issues`, `suggestions`, `improved_code`
(modelled as the four fields of this structure). -/
structure ReviewDict where
  summary : JVal
  issues : JVal
  suggestions : JVal
  improvedCode : JVal

/-- The degraded result synthesized when `json.loads` raises
`JSONDecodeError` with detail `e`. -/
def syntheticResult (e : Chars) : ReviewDict :=
  { summary := .str (s2l "Analysis completed, but response formatting encountered an issue.")
  , issues := .arr [.obj
      [ (s2l "type", .str (s2l "error"))
      , (s2l "severity", .str (s2l "medium"))
      , (s2l "description", .str (s2l "Failed to parse AI response: " ++ e))
      , (s2l "line", .null) ]]
  , suggestions := .arr [.str (s2l "Please try reviewing the code again.")]
  , improvedCode := .null }

/-- `CodeReviewService.analyze_code` given the provider call's outcome:
clean the reply, parse it, and build the result dict with
`analysis.get` defaults.  A `JSONDecodeError` is absorbed into
`syntheticResult`; a reply parsing to a non-dict raises `AttributeError`
at `analysis.get`, which the outer `except Exception` hands to
`_handle_exception`; a provider failure goes to `_handle_exception`
directly. -/
def analyzeCode (provider : Chars) (po : Except Chars Chars) : Except HTTPErr ReviewDict :=
  match po with
  | .error e => .error (handleException provider e)
  | .ok content =>
    match jsonLoads (cleanContent content) with
    | .error e => .ok (syntheticResult e)
    | .ok (.obj kvs) => .ok
      { summary := (objGet kvs (s2l "summary")).getD (.str (s2l "Analysis completed."))
      , issues := (objGet kvs (s2l "issues")).getD (.arr [])
      , suggestions := (objGet kvs (s2l "suggestions")).getD (.arr [])
      , improvedCode := (objGet kvs (s2l "improved_code")).getD .null }
    | .ok j => .error (handleException provider (attrGetMsg (pyTypeName j)))

/-! ### Endpoint (`main.py review_code` and the request/response models)

`CodeReviewRequest` declares `code` with `min_length=1`; FastAPI rejects
a violating request body with status 422 before the endpoint function
runs (modelled by the first guard of `inboundReview`).  The endpoint
then applies its own two 400 checks, calls the analysis, and validates
the result dict against `CodeReviewResponse` (summary must be a string,
issues/suggestions lists, improved_code a string or null); a validation
failure there is caught by the endpoint's `except Exception` and
surfaced as a 500. -/

structure ReviewResp where
  summary : Chars
  issues : List JVal
  suggestions : List JVal
  improvedCode : Option Chars

/-- Pydantic validation of the result dict against `CodeReviewResponse`. -/
def validateRespModel (d : ReviewDict) : Option ReviewResp :=
  match d.summary, d.issues, d.suggestions, d.improvedCode with
  | .str s, .arr xs, .arr ys, .null => some ⟨s, xs, ys, none⟩
  | .str s, .arr xs, .arr ys, .str ic => some ⟨s, xs, ys, some ic⟩
  | _, _, _, _ => none

/-- The body of `review_code` (after FastAPI model validation): the two
400 guards, then the provider-backed analysis.  The `Bool` component
records whether the provider stage was reached ("provider invoked"). -/
def reviewCodeCore (code : Chars) (po : Except Chars Chars) (provider : Chars) :
    Bool × Except HTTPErr ReviewResp :=
  if code.isEmpty || (pyStripWs code).isEmpty then
    (false, .error ⟨400, .plain (s2l "Code cannot be empty. Please provide a code snippet to review.")⟩)
  else if decide (code.length > 10000) then
    (false, .error ⟨400, .plain (s2l "Code snippet is too long. Maximum length is 10,000 characters.")⟩)
  else
    match analyzeCode provider po with
    | .error e => (true, .error e)
    | .ok d =>
      match validateRespModel d with
      | some r => (true, .ok r)
      | none => (true, .error ⟨500, .plain (s2l "An unexpected error occurred: validation error for CodeReviewResponse")⟩)

/-- The full inbound pipeline: FastAPI's `min_length=1` model validation
(a violation is a 422 request-validation rejection, modelled with a
fixed detail string), then `review_code`. -/
def inboundReview (code : Chars) (po : Except Chars Chars) (provider : Chars) :
    Bool × Except HTTPErr ReviewResp :=
  if code.length < 1 then
    (false, .error ⟨422, .plain (s2l "String should have at least 1 character")⟩)
  else reviewCodeCore code po provider

/-- Status code of an outcome (`none` when the outcome is a success). -/
def outcomeStatus (o : Except HTTPErr ReviewResp) : Option Nat :=
  match o with
  | .ok _ => none
  | .error e => some e.status

/-- Summary of a returned response (`none` when no response was returned). -/
def outcomeSummary (o : Except HTTPErr ReviewResp) : Option Chars :=
  match o with
  | .ok r => some r.summary
  | .error _ => none

/-! ### Provider selector (`CodeReviewService._get_provider`) -/

inductive ProviderTag where
  | openai | huggingface | groq | gemini
deriving DecidableEq

/-- The `provider_map` dict lookup. -/
def providerMap (id : Chars) : Option ProviderTag :=
  if id = s2l "openai" then some .openai
  else if id = s2l "huggingface" then some .huggingface
  else if id = s2l "groq" then some .groq
  else if id = s2l "gemini" then some .gemini
  else none

/-- `_get_provider`, which `__init__` runs at service construction time:
look the configured identifier up and instantiate the adapter
(`construct`), or raise `ValueError` before any request is handled. -/
def getProvider {α : Type} (id : Chars) (construct : ProviderTag → Except Chars α) :
    Except Chars α :=
  match providerMap id with
  | none => .error (s2l "Unknown AI provider: " ++ id)
  | some t => construct t

/-! ### Gemini model initialisation (`GeminiProvider._initialize_model`)

`create` models `genai.GenerativeModel(name)` (success or an exception
message) and `listModels` models `genai.list_models()` (an enumeration
or an exception message); both are outbound SDK calls. -/

/-- A model entry returned by `genai.list_models()`. -/
structure GModel where
  name : Chars
  supportedGenerationMethods : List Chars

/-- The hard-coded fallback list `model_names_to_try`. -/
def geminiFallbacks : List Chars :=
  [ s2l "models/gemini-2.0-flash"
  , s2l "models/gemini-2.5-flash"
  , s2l "models/gemini-2.5-pro"
  , s2l "models/gemini-2.0-flash-exp" ]

/-- Building the attempt list: a configured, non-empty name not already
present is inserted at the front; a configured name already present is
moved to the front; an empty (falsy) name leaves the list unchanged. -/
def buildModelList (cfg : Chars) : List Chars :=
  if !cfg.isEmpty && !(geminiFallbacks.contains cfg) then cfg :: geminiFallbacks
  else if geminiFallbacks.contains cfg then cfg :: geminiFallbacks.erase cfg
  else geminiFallbacks

/-- The `for model_name in model_names_to_try` loop: first successful
construction wins; otherwise the last error is remembered. -/
def initLoop (create : Chars → Except Chars Unit) :
    List Chars → Option Chars → Except (Option Chars) Chars
  | [], lastErr => .error lastErr
  | n :: rest, _ =>
    match create n with
    | .ok _ => .ok n
    | .error e => initLoop create rest (some e)

/-- Comma-joined names of the first three generate-capable models. -/
def availableModelsStr (ms : List GModel) : Chars :=
  List.intercalate (s2l ", ")
    (((ms.filter (fun m => m.supportedGenerationMethods.contains (s2l "generateContent"))).map
      (fun m => m.name)).take 3)

/-- `GeminiProvider._initialize_model`.  After the fallback loop is
exhausted the code enters a `try` block that builds the actionable
"Available models include" message and raises it — but that raise sits
inside its own `try`, so the bare `except Exception` catches it (and any
enumeration failure) and raises the generic message instead. -/
def initializeModel (cfg : Chars) (create : Chars → Except Chars Unit)
    (listModels : Except Chars (List GModel)) : Except Chars Chars :=
  match initLoop create (buildModelList cfg) none with
  | .ok name => .ok name
  | .error lastErr =>
    let generic := s2l "Gemini model " ++ sqm ++ cfg ++ sqm ++ s2l " not found. Error: "
      ++ lastErr.getD (s2l "None") ++ s2l ". Try: models/gemini-2.0-flash"
    let attempt : Except Chars Chars :=
      match listModels with
      | .ok ms => .error (s2l "Gemini model not found. Available models include: "
          ++ availableModelsStr ms ++ s2l ". Update GEMINI_MODEL in backend/.env")
      | .error e => .error e
    match attempt with
    | .ok v => .ok v
    | .error _ => .error generic

/-- The error text of a failed initialisation (empty for a success);
used to state properties of the message actually raised. -/
def initErrText (o : Except Chars Chars) : Chars :=
  match o with
  | .error e => e
  | .ok _ => []

/-- `true` exactly on `Except.error`. -/
def isErrorB {ε α : Type} (o : Except ε α) : Bool :=
  match o with
  | .error _ => true
  | .ok _ => false

/-! ### HuggingFace provider (`HuggingFaceProvider`)

`HFResp` models a `requests.Response`: HTTP status, whether the
`content-type` header starts with `application/json`, the outcome of
`response.json()` (an exception message when the body is not JSON) and
the raw `response.text`. -/

structure HFResp where
  status : Nat
  ctJson : Bool
  body : Except Chars JVal
  text : Chars

/-- Python `str()` / `repr()` of a parsed JSON value, used when the code
interpolates such a value into a message (`pyReprF` is `repr`, nested in
containers; strings are single-quoted without inner escaping and floats
are printed as mantissa-and-exponent, a harmless approximation — no
theorem inspects these renderings). -/
def pyReprF : Nat → JVal → Chars
  | 0, _ => []
  | _ + 1, .null => s2l "None"
  | _ + 1, .bool true => s2l "True"
  | _ + 1, .bool false => s2l "False"
  | _ + 1, .num n =>
    if n.isInt && n.exp10 == 0 then (toString n.mant).data
    else (toString n.mant).data ++ (if n.exp10 == 0 then [] else s2l "e" ++ (toString n.exp10).data)
  | _ + 1, .str s => sqm ++ s ++ sqm
  | f + 1, .arr xs => '[' :: List.intercalate (s2l ", ") (xs.map (pyReprF f)) ++ [']']
  | f + 1, .obj kvs => lbrace :: List.intercalate (s2l ", ")
      (kvs.map (fun p => sqm ++ p.1 ++ sqm ++ s2l ": " ++ pyReprF f p.2)) ++ [rbrace]

/-- `repr` with a depth budget large enough for any value a theorem
evaluates. -/
def pyRepr (j : JVal) : Chars := pyReprF 1000 j

/-- Python `str(x)` for a parsed JSON value (`str` of a string is the
string itself; every other value prints as its `repr`). -/
def pyStr (j : JVal) : Chars :=
  match j with
  | .str s => s
  | _ => pyRepr j

/-- Python `x.get(k, default=None)` as the code applies it to an
arbitrary parsed value: a dict answers the lookup, anything else raises
`AttributeError`. -/
def pyDictGet (j : JVal) (k : Chars) : Except Chars (Option JVal) :=
  match j with
  | .obj kvs => .ok (objGet kvs k)
  | _ => .error (attrGetMsg (pyTypeName j))

/-- `_retry_after_wait`'s `error_info`: `response.json()` when the
content type is JSON (propagating its failure), else `{}`. -/
def hfErrorInfo (r : HFResp) : Except Chars JVal :=
  if r.ctJson then r.body else .ok (.obj [])

/-- The wait before the single retry:
`min(error_info.get("estimated_time", 15) + 5, 30)`.  A non-numeric
`estimated_time` raises `TypeError` at the addition, and a non-dict
`error_info` raises `AttributeError` at `.get`, both propagating. -/
def hfWaitTime (r : HFResp) : Except Chars JNum :=
  match hfErrorInfo r with
  | .error e => .error e
  | .ok info =>
    match pyDictGet info (s2l "estimated_time") with
    | .error e => .error e
    | .ok none => .ok (jnumMin (jnumAdd (jint 15) (jint 5)) (jint 30))
    | .ok (some (.num q)) => .ok (jnumMin (jnumAdd q (jint 5)) (jint 30))
    | .ok (some v) => .error (s2l "unsupported operand type(s) for +: "
        ++ sqm ++ pyTypeName v ++ sqm ++ s2l " and " ++ sqm ++ s2l "int" ++ sqm)

/-- `_validate_response`'s `error_text`: the raw text, overridden by the
parsed body (its `error` field when the body is a dict). -/
def hfErrText (r : HFResp) : Chars :=
  match r.body with
  | .error _ => r.text
  | .ok (.obj kvs) =>
    match objGet kvs (s2l "error") with
    | some v => pyStr v
    | none => pyStr (.obj kvs)
  | .ok j => pyStr j

/-- `HuggingFaceProvider._validate_response`: `none` for a 200 response,
otherwise the message of the exception it raises. -/
def validateResp (model : Chars) (r : HFResp) : Option Chars :=
  if r.status == 200 then none
  else if r.status == 401 then
    some (s2l "Hugging Face authentication failed. Check HUGGINGFACE_API_KEY. Get token: https://huggingface.co/settings/tokens")
  else if r.status == 403 then
    some (s2l "Hugging Face permission error: Token needs " ++ sqm ++ s2l "Inference API" ++ sqm
      ++ s2l " permission. Update at: https://huggingface.co/settings/tokens")
  else if r.status == 404 then
    some (s2l "Model " ++ sqm ++ model ++ sqm
      ++ s2l " not found. Update HUGGINGFACE_MODEL in backend/.env. Try: "
      ++ sqm ++ s2l "mistralai/Mistral-7B-Instruct-v0.1" ++ sqm)
  else if r.status == 410 then
    some (s2l "Hugging Face endpoint deprecated for this model. The code will try a simpler model. If this persists, Hugging Face API may be temporarily unavailable. You can try again later or use OpenAI if you have credits.")
  else
    some (s2l "Hugging Face API error (Status " ++ (toString r.status).data ++ s2l "): " ++ hfErrText r)

/-- `x.get("generated_text", "").strip()` applied to an arbitrary parsed
value `x`. -/
def getGeneratedText (x : JVal) : Except Chars Chars :=
  match pyDictGet x (s2l "generated_text") with
  | .error e => .error e
  | .ok none => .ok []
  | .ok (some (.str s)) => .ok (pyStripWs s)
  | .ok (some v) => .error (attrStripMsg (pyTypeName v))

/-- The chat-template delimiter marker the code strips. -/
def hfMarker : Chars := s2l "<|start_header_id|>assistant<|end_header_id|>"

/-- Remainder of `l` after its first occurrence of `marker` (`none` when
`marker` does not occur). -/
def afterFirstSub (marker : Chars) : Chars → Option Chars
  | [] => if marker.isEmpty then some [] else none
  | c :: t =>
    if marker.isPrefixOf (c :: t) then some ((c :: t).drop marker.length)
    else afterFirstSub marker t

/-- `content.split(marker)[-1]`: the segment after the last occurrence. -/
def lastSegmentAfter : Nat → Chars → Chars → Chars
  | 0, _, l => l
  | f + 1, marker, l =>
    match afterFirstSub marker l with
    | none => l
    | some rest => lastSegmentAfter f marker rest

/-- `HuggingFaceProvider._extract_content`. -/
def extractContent (r : HFResp) : Except Chars Chars :=
  match r.body with
  | .error _ => .error (s2l "Invalid JSON response from Hugging Face API: " ++ r.text.take 200)
  | .ok result =>
    let contentE : Except Chars Chars :=
      match result with
      | .arr (x :: _) => getGeneratedText x
      | .obj kvs =>
        if (objGet kvs (s2l "generated_text")).isSome then getGeneratedText (.obj kvs)
        else
          match kvs with
          | (_, v) :: _ =>
            match v with
            | .obj _ => getGeneratedText v
            | _ => .error (s2l "Unexpected response format: " ++ pyRepr result)
          | [] => .error (s2l "Unexpected response format: " ++ pyRepr result)
      | _ => .error (s2l "Unexpected response format: " ++ pyRepr result)
    match contentE with
    | .error e => .error e
    | .ok content =>
      if content.isEmpty then
        .error (s2l "Empty response from Hugging Face API: " ++ pyRepr result)
      else if hasSub hfMarker content then
        .ok (pyStripWs (lastSegmentAfter (content.length + 1) hfMarker content))
      else .ok content

/-- Validation followed by extraction, applied to whichever response the
request/retry sequence settled on. -/
def hfProcess (model : Chars) (r : HFResp) : Except Chars Chars :=
  match validateResp model r with
  | some e => .error e
  | none => extractContent r

/-- The request/503-retry skeleton of `HuggingFaceProvider.analyze_code`:
`r0` is the outcome of the real request and `r1` of the single retry
(each `.error` is a `requests` connection failure).  The result records
the sleeps performed (in seconds), the number of real requests made, and
the final outcome. -/
def hfAnalyze (model : Chars) (r0 r1 : Except Chars HFResp) :
    List JNum × Nat × Except Chars Chars :=
  match r0 with
  | .error e => ([], 1, .error (s2l "Failed to connect to Hugging Face API: " ++ e))
  | .ok a =>
    if a.status == 503 then
      match hfWaitTime a with
      | .error e => ([], 1, .error e)
      | .ok w =>
        match r1 with
        | .error e => ([w], 2, .error (s2l "Failed to connect to Hugging Face API after retry: " ++ e))
        | .ok b => ([w], 2, hfProcess model b)
    else ([], 1, hfProcess model a)


/-! ### Concrete inputs and projections used by the claim theorems -/

/-- A reply wrapped in a triple-backtick markdown fence, optionally
tagged `json`, around `body` on its own lines. -/
def fenceWrap (tag : Bool) (body : Chars) : Chars :=
  (if tag then s2l "```json" else s2l "```") ++ ('\n' :: body) ++ ('\n' :: s2l "```")

/-- The scenario message of claim C2. -/
def rateLimitScenarioMsg : Chars := s2l "Rate limit exceeded, too many requests"

/-- Number of issues in an analysis outcome (0 for failures), used to
tell two outcomes apart. -/
def issueCountOf (o : Except HTTPErr ReviewDict) : Nat :=
  match o with
  | .ok d => match d.issues with | .arr xs => xs.length | _ => 0
  | .error _ => 0

/-- A reply that is itself already a fenced block (the body of the C5
counterexample). -/
def c5Body : Chars := s2l "```json\n\x7b\x7d\n```"

/-- The parsed reply object underlying a provider outcome (`none` when
the provider failed, the reply did not parse, or parsed to a non-dict). -/
def parsedObjOf (po : Except Chars Chars) : Option (List (Chars × JVal)) :=
  match po with
  | .ok raw =>
    match jsonLoads (cleanContent raw) with
    | .ok (.obj kvs) => some kvs
    | _ => none
  | .error _ => none

/-- The concrete 503 response of the C6 scenario (`estimated_time: 100`). -/
def hfRespLoading : HFResp :=
  ⟨503, true, .ok (.obj [(s2l "estimated_time", .num (jint 100))]), []⟩

/-- A concrete failing retry response (503 again). -/
def hfRespRetryFail : HFResp := ⟨503, false, .ok .null, s2l "busy"⟩

/-- The all-fail `GenerativeModel` constructor of the C7 failing input. -/
def c7Create : Chars → Except Chars Unit := fun _ => .error (s2l "404 model not found")

/-- A successful model enumeration for the C7 failing input. -/
def c7Models : Except Chars (List GModel) :=
  .ok [⟨s2l "models/a", [s2l "generateContent"]⟩, ⟨s2l "models/b", [s2l "generateContent"]⟩]

/-! ### Helper lemmas -/

theorem isPrefixOf_self (l : Chars) : l.isPrefixOf l = true := by
  induction l with
  | nil => rfl
  | cons c t ih => simp [List.isPrefixOf, ih]

theorem isPrefixOf_append_left (a b l : Chars) (h : (a ++ b).isPrefixOf l = true) :
    a.isPrefixOf l = true := by
  induction a generalizing l with
  | nil => simp [List.isPrefixOf]
  | cons c t ih =>
    cases l with
    | nil => simp [List.isPrefixOf] at h
    | cons d m =>
      simp only [List.cons_append, List.isPrefixOf, Bool.and_eq_true] at h ⊢
      exact ⟨h.1, ih m h.2⟩

theorem hasSub_append_left (a b m : Chars) (h : hasSub (a ++ b) m = true) :
    hasSub a m = true := by
  induction m with
  | nil =>
    simp only [hasSub, List.isEmpty_iff, List.append_eq_nil] at h ⊢
    exact h.1
  | cons c t ih =>
    simp only [hasSub, Bool.or_eq_true] at h ⊢
    rcases h with h | h
    · exact Or.inl (isPrefixOf_append_left a b _ h)
    · exact Or.inr (ih h)

theorem hasSub_append_self (pre n : Chars) : hasSub n (pre ++ n) = true := by
  induction pre with
  | nil =>
    cases n with
    | nil => rfl
    | cons c t => simp [hasSub, isPrefixOf_self]
  | cons p ps ih => simp [hasSub, ih]

theorem hasSub_api_of_api_error (m : Chars)
    (h : hasSub (s2l "api error") m = true) : hasSub (s2l "api") m = true :=
  hasSub_append_left (s2l "api") (s2l " error") m h

theorem dropWhile_append_chars (p : Char → Bool) (l m : Chars) :
    (l ++ m).dropWhile p =
      if (l.dropWhile p).isEmpty then m.dropWhile p else l.dropWhile p ++ m := by
  induction l with
  | nil => simp
  | cons c t ih =>
    by_cases h : p c
    · simpa [List.dropWhile, h] using ih
    · simp [List.dropWhile, h]

theorem dropEndWhile_append_last (p : Char → Bool) (l : Chars) (c : Char) (h : p c = true) :
    dropEndWhile p (l ++ [c]) = dropEndWhile p l := by
  simp [dropEndWhile, List.dropWhile, h]

theorem dropEndWhile_cons_skip (p : Char → Bool) (l : Chars) (c : Char) (h : p c = true) :
    dropEndWhile p (c :: l ++ [c]) = dropEndWhile p (c :: l) := by
  simpa using dropEndWhile_append_last p (c :: l) c h

/-! ### Fenced markdown replies (claim C5 machinery) -/

theorem dropWhile_fenceWrap_true (body : Chars) :
    List.dropWhile (fun c => (s2l "```json").contains c) (fenceWrap true body)
      = '\n' :: (body ++ ('\n' :: s2l "```")) := by
  show List.dropWhile _ ('`' :: '`' :: '`' :: 'j' :: 's' :: 'o' :: 'n' :: '\n' :: (body ++ ('\n' :: s2l "```"))) = _
  rw [List.dropWhile_cons_of_pos (by decide), List.dropWhile_cons_of_pos (by decide),
    List.dropWhile_cons_of_pos (by decide), List.dropWhile_cons_of_pos (by decide),
    List.dropWhile_cons_of_pos (by decide), List.dropWhile_cons_of_pos (by decide),
    List.dropWhile_cons_of_pos (by decide), List.dropWhile_cons_of_neg (by decide)]

theorem dropEnd_fence (set : Chars) (hTick : set.contains '`' = true)
    (hNl : set.contains '\n' = false) (X : Chars) :
    dropEndWhile (fun c => set.contains c) (X ++ ('\n' :: s2l "```")) = X ++ ['\n'] := by
  unfold dropEndWhile
  rw [show ('\n' :: s2l "```") = (['\n', '`', '`', '`'] : Chars) from rfl]
  rw [List.reverse_append]
  rw [show (['\n', '`', '`', '`'] : Chars).reverse = ['`', '`', '`', '\n'] from rfl]
  rw [show (['`', '`', '`', '\n'] : Chars) ++ X.reverse = '`' :: '`' :: '`' :: '\n' ::X.reverse from rfl]
  rw [List.dropWhile_cons_of_pos hTick, List.dropWhile_cons_of_pos hTick,
    List.dropWhile_cons_of_pos hTick, List.dropWhile_cons_of_neg (by simpa using hNl)]
  rw [show ('\n' ::X.reverse : Chars) = ['\n'] ++ X.reverse from rfl]
  rw [List.reverse_append, List.reverse_reverse]
  rfl

theorem stripJson_fenceWrap (tag : Bool) (body : Chars) :
    pyStripChars (s2l "```json") (fenceWrap tag body) = '\n' :: (body ++ ['\n']) := by
  cases tag with
  | false =>
    show pyStripChars _ ('`' :: '`' :: '`' :: '\n' ::(body ++ ('\n' :: s2l "```"))) = _
    unfold pyStripChars
    rw [List.dropWhile_cons_of_pos (by decide), List.dropWhile_cons_of_pos (by decide),
      List.dropWhile_cons_of_pos (by decide), List.dropWhile_cons_of_neg (by decide)]
    rw [show '\n' :: (body ++ ('\n' :: s2l "```")) = ('\n' ::body) ++ ('\n' :: s2l "```") from rfl]
    rw [dropEnd_fence (s2l "```json") (by decide) (by decide)]
    rfl
  | true =>
    unfold pyStripChars
    rw [dropWhile_fenceWrap_true]
    rw [show '\n' :: (body ++ ('\n' :: s2l "```")) = ('\n' ::body) ++ ('\n' :: s2l "```") from rfl]
    rw [dropEnd_fence (s2l "```json") (by decide) (by decide)]
    rfl

theorem stripTicks_mid (body : Chars) :
    pyStripChars (s2l "```") ('\n' :: (body ++ ['\n'])) = '\n' :: (body ++ ['\n']) := by
  unfold pyStripChars
  rw [List.dropWhile_cons_of_neg (by decide)]
  unfold dropEndWhile
  rw [show ('\n' :: (body ++ ['\n'])) = ('\n' ::body) ++ ['\n'] from rfl, List.reverse_append]
  rw [show (['\n'] : Chars).reverse ++ ('\n' ::body).reverse = '\n' :: ('\n' ::body).reverse from rfl]
  rw [List.dropWhile_cons_of_neg (by decide)]
  rw [show ('\n' :: ('\n' ::body).reverse : Chars) = ['\n'] ++ ('\n' ::body).reverse from rfl]
  rw [List.reverse_append, List.reverse_reverse]
  rfl

theorem dropWhile_append_empty (p : Char → Bool) (l m : Chars) (h : l.dropWhile p = []) :
    (l ++ m).dropWhile p = m.dropWhile p := by
  rw [dropWhile_append_chars, h]
  rfl

theorem dropWhile_append_nonempty (p : Char → Bool) (l m : Chars) (h : ¬ l.dropWhile p = []) :
    (l ++ m).dropWhile p = l.dropWhile p ++ m := by
  rw [dropWhile_append_chars, if_neg (by simpa using h)]

theorem pyStripWs_wrapNl (body : Chars) :
    pyStripWs ('\n' :: (body ++ ['\n'])) = pyStripWs body := by
  unfold pyStripWs pyStripChars
  rw [List.dropWhile_cons_of_pos (by decide)]
  by_cases h : body.dropWhile (fun c => pyWs.contains c) = []
  · rw [dropWhile_append_empty _ _ _ h, h]
    rfl
  · rw [dropWhile_append_nonempty _ _ _ h]
    rw [dropEndWhile_append_last _ _ '\n' (by decide)]

theorem cleanContent_fenceWrap (tag : Bool) (body : Chars) :
    cleanContent (fenceWrap tag body) = pyStripWs body := by
  have hs : startsWithL (fenceWrap tag body) (s2l "```") = true := by cases tag <;> rfl
  unfold cleanContent
  simp only [hs, if_true]
  rw [stripJson_fenceWrap, stripTicks_mid, pyStripWs_wrapNl]

/-! ### Claim theorems -/

/-- Claim C1: for every raw adapter text whose cleaned form is not valid
JSON, the normalization stage of `analyze_code` returns (never raises) a
result whose `issues` is exactly one synthetic issue of type `error` and
severity `medium`, whose description includes the parse failure detail,
and whose `suggestions` is the single retry hint. -/
theorem c1_parse_failure_synthesizes (provider raw e : Chars)
    (h : jsonLoads (cleanContent raw) = .error e) :
    analyzeCode provider (.ok raw) = .ok (syntheticResult e)
    ∧ (syntheticResult e).issues = .arr [.obj
        [ (s2l "type", .str (s2l "error"))
        , (s2l "severity", .str (s2l "medium"))
        , (s2l "description", .str (s2l "Failed to parse AI response: " ++ e))
        , (s2l "line", .null) ]]
    ∧ hasSub e (s2l "Failed to parse AI response: " ++ e) = true
    ∧ (syntheticResult e).suggestions = .arr [.str (s2l "Please try reviewing the code again.")] := by
  refine ⟨?_, rfl, hasSub_append_self _ _, rfl⟩
  simp only [analyzeCode, h]

/-- Witness for C1 at the concrete unparseable reply `"not json"`. -/
theorem c1_parse_failure_synthesizes_witness :
    jsonLoads (cleanContent (s2l "not json")) = .error (s2l "Expecting value")
    ∧ analyzeCode (s2l "gemini") (.ok (s2l "not json"))
        = .ok (syntheticResult (s2l "Expecting value")) :=
  ⟨rfl, (c1_parse_failure_synthesizes (s2l "gemini") (s2l "not json")
    (s2l "Expecting value") rfl).1⟩

/-- Counterexample to claim C2: the message
`"Rate limit exceeded, too many requests"` contains `"exceeded"`, so
rule 1 fires first and the classifier surfaces HTTP 402 (quota), not the
429 the claim states. -/
theorem c2_counterexample :
    (handleException (s2l "gemini") rateLimitScenarioMsg).status = 402
    ∧ ¬ (handleException (s2l "gemini") rateLimitScenarioMsg).status = 429 :=
  ⟨rfl, by decide⟩

/-- Claim C2 (amended): an adapter failure with message
`"Rate limit exceeded, too many requests"` is classified Quota-Exceeded
and surfaced with HTTP status 402, because `"exceeded"` matches rule 1
before the rate-limit rule is consulted. -/
theorem c2_rate_limit_scenario_is_quota (provider : Chars) :
    handleException provider rateLimitScenarioMsg = createQuotaExc
    ∧ (handleException provider rateLimitScenarioMsg).status = 402 :=
  ⟨rfl, rfl⟩

/-- Claim C3: `_handle_exception` is exactly the spec's five-rule
first-match-wins classifier (case-insensitive substring inspection in
priority order); in particular a message containing both `"quota"` and
`"rate limit"` is classified Quota-Exceeded.  Totality of `specClassify`
gives exactly one categorized outcome per message. -/
theorem c3_classifier_matches_spec (provider emsg : Chars) :
    handleException provider emsg = catToExc provider emsg (specClassify emsg)
    ∧ (hasSubCI (s2l "quota") emsg = true → hasSubCI (s2l "rate limit") emsg = true →
        specClassify emsg = .quota ∧ (handleException provider emsg).status = 402) := by
  constructor
  · unfold handleException specClassify specPriority catToExc
    simp only [List.find?, specRuleHolds]
    cases h1 : (hasSub (s2l "quota") (lowerStr emsg) || hasSub (s2l "billing") (lowerStr emsg)
        || hasSub (s2l "exceeded") (lowerStr emsg)) with
    | true => simp [h1]
    | false =>
      cases h2 : (hasSub (s2l "rate limit") (lowerStr emsg)
          || hasSub (s2l "too many requests") (lowerStr emsg)) with
      | true => simp [h1, h2]
      | false =>
        cases h3 : (hasSub (s2l "authentication") (lowerStr emsg)
            || (hasSub (s2l "invalid") (lowerStr emsg) && hasSub (s2l "key") (lowerStr emsg))
            || hasSub (s2l "unauthorized") (lowerStr emsg)) with
        | true => simp [h1, h2, h3]
        | false =>
          cases h4 : hasSub (s2l "api") (lowerStr emsg) with
          | true => simp [h1, h2, h3, h4]
          | false =>
            have h5 : hasSub (s2l "api error") (lowerStr emsg) = false := by
              cases hv : hasSub (s2l "api error") (lowerStr emsg) with
              | true => rw [hasSub_api_of_api_error _ hv] at h4; exact Bool.noConfusion h4
              | false => rfl
            simp [h1, h2, h3, h4, h5]
  · intro hq hr
    unfold hasSubCI at hq
    have hstat : (handleException provider emsg).status = 402 := by
      unfold handleException
      simp [hq]
      rfl
    refine ⟨?_, hstat⟩
    unfold specClassify specPriority
    simp only [List.find?, specRuleHolds, hq]
    rfl

/-- Witness for C3 at a message containing both `"Quota"` and
`"rate limit"`. -/
theorem c3_classifier_matches_spec_witness :
    specClassify (s2l "Quota and rate limit hit") = .quota
    ∧ (handleException (s2l "openai") (s2l "Quota and rate limit hit")).status = 402 :=
  (c3_classifier_matches_spec (s2l "openai") (s2l "Quota and rate limit hit")).2 rfl rfl

/-- Counterexample to claim C5 as stated: wrapping an already-fenced
reply in another fence does not normalize to the same result as the
unfenced text — `_clean_content` strips only one fence level, so the
fenced form fails to parse (one synthetic issue) while the unfenced form
parses to the default result (no issues). -/
theorem c5_counterexample :
    ¬ analyzeCode (s2l "gemini") (.ok (fenceWrap true c5Body))
        = analyzeCode (s2l "gemini") (.ok c5Body) := by
  intro h
  exact absurd (congrArg issueCountOf h) (by decide)

/-- Claim C5 (amended): for every reply wrapped in a triple-backtick
fence (optionally tagged `json`) whose body does not itself begin with a
fence and whose parse is unaffected by stripping the surrounding
whitespace (Python `strip()` also removes `\x0b`/`\x0c`, which JSON
parsing does not skip), the normalizer produces the same result for the
fenced and the unfenced text. -/
theorem c5_fence_strip_equivalence (tag : Bool) (provider body : Chars)
    (hfence : startsWithL body (s2l "```") = false)
    (hparse : jsonLoads (pyStripWs body) = jsonLoads body) :
    analyzeCode provider (.ok (fenceWrap tag body)) = analyzeCode provider (.ok body) := by
  have hcc : cleanContent body = body := by
    unfold cleanContent
    rw [hfence]
    rfl
  unfold analyzeCode
  dsimp only
  rw [cleanContent_fenceWrap, hcc, hparse]

/-- Witness for C5 (amended) at a concrete fenced JSON reply. -/
theorem c5_fence_strip_equivalence_witness :
    startsWithL (s2l "\x7b\"summary\": \"ok\"\x7d") (s2l "```") = false
    ∧ jsonLoads (pyStripWs (s2l "\x7b\"summary\": \"ok\"\x7d"))
        = jsonLoads (s2l "\x7b\"summary\": \"ok\"\x7d")
    ∧ analyzeCode (s2l "gemini") (.ok (fenceWrap true (s2l "\x7b\"summary\": \"ok\"\x7d")))
        = analyzeCode (s2l "gemini") (.ok (s2l "\x7b\"summary\": \"ok\"\x7d")) :=
  ⟨rfl, rfl, c5_fence_strip_equivalence true (s2l "gemini") (s2l "\x7b\"summary\": \"ok\"\x7d") rfl rfl⟩

theorem validate_summary_shape (d : ReviewDict) (r : ReviewResp)
    (h : validateRespModel d = some r) : d.summary = .str r.summary := by
  unfold validateRespModel at h
  split at h
  · cases h
    simp_all
  · cases h
    simp_all
  · cases h

theorem validate_issues_shape (d : ReviewDict) (r : ReviewResp)
    (h : validateRespModel d = some r) : d.issues = .arr r.issues := by
  unfold validateRespModel at h
  split at h
  · cases h
    simp_all
  · cases h
    simp_all
  · cases h

theorem validate_suggestions_shape (d : ReviewDict) (r : ReviewResp)
    (h : validateRespModel d = some r) : d.suggestions = .arr r.suggestions := by
  unfold validateRespModel at h
  split at h
  · cases h
    simp_all
  · cases h
    simp_all
  · cases h

/-- Counterexample to claim C4 as stated: for the valid request `"x"`
whose provider call succeeds with the reply `{"summary": ""}`, the
response returned to the caller has an *empty* summary — the fallback
applies only when the field is absent, not when the reply supplies an
empty string. -/
theorem c4_counterexample :
    1 ≤ (s2l "x").length ∧ (s2l "x").length ≤ 10000
    ∧ outcomeSummary (inboundReview (s2l "x")
        (.ok (s2l "\x7b\"summary\": \"\"\x7d")) (s2l "gemini")).2 = some [] :=
  ⟨by decide, by decide, rfl⟩

/-- Claim C4 (amended): whenever the pipeline returns a response, the
four fields are present by construction (`ReviewResp`), fields absent
from the parsed reply receive the documented defaults (the fixed
non-empty fallback summary and empty sequences), and the returned
summary can be empty only when the parsed reply itself supplied an
empty-string summary. -/
theorem c4_result_shape (code provider : Chars) (po : Except Chars Chars) (b : Bool) (r : ReviewResp)
    (h : inboundReview code po provider = (b, .ok r)) :
    (∀ kvs, parsedObjOf po = some kvs →
      (objGet kvs (s2l "summary") = none → r.summary = s2l "Analysis completed.")
      ∧ (objGet kvs (s2l "issues") = none → r.issues = [])
      ∧ (objGet kvs (s2l "suggestions") = none → r.suggestions = []))
    ∧ (r.summary = [] →
        ∃ kvs, parsedObjOf po = some kvs ∧ objGet kvs (s2l "summary") = some (.str [])) := by
  unfold inboundReview at h
  split at h
  · simp at h
  · unfold reviewCodeCore at h
    split at h
    · simp at h
    · split at h
      · simp at h
      · cases hA : analyzeCode provider po with
        | error e => rw [hA] at h; simp at h
        | ok d =>
          rw [hA] at h
          dsimp only at h
          cases hV : validateRespModel d with
          | none => rw [hV] at h; simp at h
          | some rr =>
            rw [hV] at h
            simp only [Prod.mk.injEq] at h
            obtain ⟨-, h2⟩ := h
            cases h2
            cases po with
            | error e => simp [analyzeCode] at hA
            | ok raw =>
              unfold analyzeCode at hA
              dsimp only at hA
              cases hp : jsonLoads (cleanContent raw) with
              | error e =>
                rw [hp] at hA
                cases hA
                have hsum := validate_summary_shape _ _ hV
                constructor
                · intro kvs hkvs
                  unfold parsedObjOf at hkvs
                  dsimp only at hkvs
                  rw [hp] at hkvs
                  cases hkvs
                · intro hempty
                  rw [hempty] at hsum
                  dsimp only [syntheticResult] at hsum
                  injection hsum with h3
                  exact absurd h3 (by decide)
              | ok j =>
                rw [hp] at hA
                cases j with
                | obj kvs =>
                  cases hA
                  have hsum := validate_summary_shape _ _ hV
                  have hiss := validate_issues_shape _ _ hV
                  have hsug := validate_suggestions_shape _ _ hV
                  dsimp only at hsum hiss hsug
                  have hobj : parsedObjOf (Except.ok raw) = some kvs := by
                    unfold parsedObjOf
                    dsimp only
                    rw [hp]
                  constructor
                  · intro kvs' hkvs'
                    rw [hobj] at hkvs'
                    cases hkvs'
                    refine ⟨?_, ?_, ?_⟩
                    · intro hnone
                      rw [hnone] at hsum
                      simp only [Option.getD] at hsum
                      injection hsum with h3
                      exact h3.symm
                    · intro hnone
                      rw [hnone] at hiss
                      simp only [Option.getD] at hiss
                      injection hiss with h3
                      exact h3.symm
                    · intro hnone
                      rw [hnone] at hsug
                      simp only [Option.getD] at hsug
                      injection hsug with h3
                      exact h3.symm
                  · intro hempty
                    rw [hempty] at hsum
                    cases hS : objGet kvs (s2l "summary") with
                    | none =>
                      rw [hS] at hsum
                      simp only [Option.getD] at hsum
                      injection hsum with h3
                      exact absurd h3 (by decide)
                    | some v =>
                      rw [hS] at hsum
                      simp only [Option.getD] at hsum
                      exact ⟨kvs, hobj, by rw [hS, hsum]⟩
                | null => cases hA
                | bool bb => cases hA
                | num q => cases hA
                | str ss => cases hA
                | arr xs => cases hA

/-- Witness for C4 (amended) at the reply `{}` (all fields absent). -/
theorem c4_result_shape_witness :
    (∀ kvs, parsedObjOf (.ok (s2l "\x7b\x7d")) = some kvs →
      (objGet kvs (s2l "summary") = none → (s2l "Analysis completed.") = s2l "Analysis completed.")
      ∧ (objGet kvs (s2l "issues") = none → ([] : List JVal) = [])
      ∧ (objGet kvs (s2l "suggestions") = none → ([] : List JVal) = []))
    ∧ ((s2l "Analysis completed.") = [] →
        ∃ kvs, parsedObjOf (.ok (s2l "\x7b\x7d")) = some kvs
          ∧ objGet kvs (s2l "summary") = some (.str [])) :=
  c4_result_shape (s2l "x") (s2l "gemini") (.ok (s2l "\x7b\x7d")) true
    ⟨s2l "Analysis completed.", [], [], none⟩ rfl

/-- Counterexample to claim C8 as stated: the empty code string violates
the request model's `min_length=1`, so FastAPI rejects it with 422 (not
the claimed 400) — the provider is still never invoked. -/
theorem c8_counterexample :
    (inboundReview [] (.ok []) (s2l "gemini")).1 = false
    ∧ outcomeStatus (inboundReview [] (.ok []) (s2l "gemini")).2 = some 422
    ∧ ¬ outcomeStatus (inboundReview [] (.ok []) (s2l "gemini")).2 = some 400 :=
  ⟨rfl, rfl, by decide⟩

/-- Claim C8 (amended): an empty code string is rejected by the request
model with 422 before the endpoint runs; a non-empty whitespace-only
code string and an over-long (> 10000) code string are rejected by the
endpoint with 400.  In all three cases the provider is never invoked. -/
theorem c8_validation_rejects (code provider : Chars) (po : Except Chars Chars) :
    (code = [] → inboundReview code po provider
        = (false, .error ⟨422, .plain (s2l "String should have at least 1 character")⟩))
    ∧ (code ≠ [] → pyStripWs code = [] →
        (inboundReview code po provider).1 = false
        ∧ outcomeStatus (inboundReview code po provider).2 = some 400)
    ∧ (code ≠ [] → pyStripWs code ≠ [] → code.length > 10000 →
        (inboundReview code po provider).1 = false
        ∧ outcomeStatus (inboundReview code po provider).2 = some 400) := by
  refine ⟨?_, ?_, ?_⟩
  · intro h
    subst h
    rfl
  · intro hne hws
    unfold inboundReview reviewCodeCore
    have hlen : ¬ code.length < 1 := by
      cases code with
      | nil => exact absurd rfl hne
      | cons c t => simp
    rw [if_neg hlen]
    have hcond : (code.isEmpty || (pyStripWs code).isEmpty) = true := by
      rw [hws]
      simp
    rw [if_pos hcond]
    exact ⟨rfl, rfl⟩
  · intro hne hws hlong
    unfold inboundReview reviewCodeCore
    have hlen : ¬ code.length < 1 := by
      cases code with
      | nil => exact absurd rfl hne
      | cons c t => simp
    rw [if_neg hlen]
    have hcond : ¬ (code.isEmpty || (pyStripWs code).isEmpty) = true := by
      simp only [Bool.or_eq_true, List.isEmpty_iff]
      rintro (h | h)
      · exact hne h
      · exact hws h
    rw [if_neg hcond]
    rw [if_pos (decide_eq_true hlong)]
    exact ⟨rfl, rfl⟩

/-- Witness for C8 (amended) at the whitespace-only code `" "`. -/
theorem c8_validation_rejects_witness :
    (inboundReview (s2l " ") (.ok []) (s2l "gemini")).1 = false
    ∧ outcomeStatus (inboundReview (s2l " ") (.ok []) (s2l "gemini")).2 = some 400 :=
  (c8_validation_rejects (s2l " ") (s2l "gemini") (.ok [])).2.1 (by decide) rfl

/-- Claim C9: the selector maps exactly the four enumerated identifiers
to their adapters; any other identifier makes service construction fail
immediately with the configuration error (the adapter constructor is
never consulted). -/
theorem c9_provider_selection {α : Type} (id : Chars) (construct : ProviderTag → Except Chars α) :
    (providerMap id = none ↔
      ¬ (id = s2l "openai" ∨ id = s2l "huggingface" ∨ id = s2l "groq" ∨ id = s2l "gemini"))
    ∧ (providerMap id = none →
        getProvider id construct = .error (s2l "Unknown AI provider: " ++ id))
    ∧ (∀ t, providerMap id = some t → getProvider id construct = construct t)
    ∧ providerMap (s2l "openai") = some .openai
    ∧ providerMap (s2l "huggingface") = some .huggingface
    ∧ providerMap (s2l "groq") = some .groq
    ∧ providerMap (s2l "gemini") = some .gemini := by
  refine ⟨?_, ?_, ?_, rfl, rfl, rfl, rfl⟩
  · unfold providerMap
    split_ifs with h1 h2 h3 h4 <;> simp_all
  · intro h
    unfold getProvider
    rw [h]
  · intro t ht
    unfold getProvider
    rw [ht]

/-- Witness for C9 at the unknown identifier `"cohere"`. -/
theorem c9_provider_selection_witness :
    providerMap (s2l "cohere") = none
    ∧ getProvider (s2l "cohere") (fun _ => Except.ok (0 : Nat))
        = .error (s2l "Unknown AI provider: " ++ s2l "cohere") :=
  ⟨rfl, (c9_provider_selection (s2l "cohere") (fun _ => Except.ok (0 : Nat))).2.1 rfl⟩

/-- Claim C10: every analysis call either returns the four-field result
dict (the fields of `ReviewDict`) or raises an `HTTPException` whose
status is one of 402, 429, 401, 502, 500; `_handle_exception` always
produces one of those five exceptions, so no adapter failure escapes
uncategorized. -/
theorem c10_outcome_partition (provider : Chars) (po : Except Chars Chars) :
    ((∃ d, analyzeCode provider po = .ok d)
      ∨ (∃ e, analyzeCode provider po = .error e
          ∧ (e.status = 402 ∨ e.status = 429 ∨ e.status = 401 ∨ e.status = 502 ∨ e.status = 500)))
    ∧ (∀ msg, (handleException provider msg).status = 402
        ∨ (handleException provider msg).status = 429
        ∨ (handleException provider msg).status = 401
        ∨ (handleException provider msg).status = 502
        ∨ (handleException provider msg).status = 500) := by
  have hh : ∀ msg, (handleException provider msg).status = 402
      ∨ (handleException provider msg).status = 429
      ∨ (handleException provider msg).status = 401
      ∨ (handleException provider msg).status = 502
      ∨ (handleException provider msg).status = 500 := by
    intro msg
    unfold handleException
    dsimp only
    split_ifs <;>
      simp [createQuotaExc, createRateLimitExc, createAuthExc, createGenericApiExc,
        createUnexpectedExc]
  refine ⟨?_, hh⟩
  cases hA : analyzeCode provider po with
  | ok d => exact Or.inl ⟨d, rfl⟩
  | error e =>
    refine Or.inr ⟨e, rfl, ?_⟩
    cases po with
    | error msg =>
      unfold analyzeCode at hA
      dsimp only at hA
      injection hA with h1
      rw [← h1]
      exact hh msg
    | ok raw =>
      unfold analyzeCode at hA
      dsimp only at hA
      cases hp : jsonLoads (cleanContent raw) with
      | error e2 => rw [hp] at hA; cases hA
      | ok j =>
        rw [hp] at hA
        cases j with
        | obj kvs => cases hA
        | null => injection hA with h1; rw [← h1]; exact hh _
        | bool bb => injection hA with h1; rw [← h1]; exact hh _
        | num q => injection hA with h1; rw [← h1]; exact hh _
        | str ss => injection hA with h1; rw [← h1]; exact hh _
        | arr xs => injection hA with h1; rw [← h1]; exact hh _

/-- Claim C6: on a 503 first response the HuggingFace adapter sleeps
exactly once for `min(estimated_time + 5, 30)` (15 when the response
supplies no estimate), makes exactly 2 real requests (one retry, no
more), and the failure of the retry — connection failure or non-200
response — is what propagates. -/
theorem c6_hf_retry (model : Chars) (a : HFResp) (r1 : Except Chars HFResp) (w : JNum)
    (h503 : a.status = 503) (hw : hfWaitTime a = .ok w) :
    (hfAnalyze model (.ok a) r1).1 = [w]
    ∧ (hfAnalyze model (.ok a) r1).2.1 = 2
    ∧ (∀ kvs q, hfErrorInfo a = .ok (.obj kvs) →
        objGet kvs (s2l "estimated_time") = some (.num q) →
        w = jnumMin (jnumAdd q (jint 5)) (jint 30))
    ∧ (∀ kvs, hfErrorInfo a = .ok (.obj kvs) →
        objGet kvs (s2l "estimated_time") = none →
        w = jnumMin (jnumAdd (jint 15) (jint 5)) (jint 30))
    ∧ (∀ e, r1 = .error e → (hfAnalyze model (.ok a) r1).2.2
        = .error (s2l "Failed to connect to Hugging Face API after retry: " ++ e))
    ∧ (∀ b em, r1 = .ok b → validateResp model b = some em →
        (hfAnalyze model (.ok a) r1).2.2 = .error em) := by
  have hred : hfAnalyze model (.ok a) r1 = (match r1 with
      | .error e => ([w], 2, .error (s2l "Failed to connect to Hugging Face API after retry: " ++ e))
      | .ok b => ([w], 2, hfProcess model b)) := by
    unfold hfAnalyze
    dsimp only
    rw [h503]
    simp only [hw]
    rfl
  refine ⟨?_, ?_, ?_, ?_, ?_, ?_⟩
  · rw [hred]
    cases r1 <;> rfl
  · rw [hred]
    cases r1 <;> rfl
  · intro kvs q hinfo hget
    unfold hfWaitTime at hw
    rw [hinfo] at hw
    dsimp only [pyDictGet] at hw
    rw [hget] at hw
    injection hw with h1
    exact h1.symm
  · intro kvs hinfo hget
    unfold hfWaitTime at hw
    rw [hinfo] at hw
    dsimp only [pyDictGet] at hw
    rw [hget] at hw
    injection hw with h1
    exact h1.symm
  · intro e h1
    subst h1
    rw [hred]
  · intro b em h1 hv
    subst h1
    rw [hred]
    dsimp only
    unfold hfProcess
    rw [hv]

/-- Witness for C6: with `estimated_time: 100` the single wait is
`min(100+5, 30) = 30`, exactly 2 requests are made, and the retry's
validation failure propagates. -/
theorem c6_hf_retry_witness :
    hfRespLoading.status = 503
    ∧ hfWaitTime hfRespLoading = .ok (jint 30)
    ∧ jnumMin (jnumAdd (jint 100) (jint 5)) (jint 30) = jint 30
    ∧ (hfAnalyze [] (.ok hfRespLoading) (.ok hfRespRetryFail)).1 = [jint 30]
    ∧ (hfAnalyze [] (.ok hfRespLoading) (.ok hfRespRetryFail)).2.1 = 2
    ∧ (hfAnalyze [] (.ok hfRespLoading) (.ok hfRespRetryFail)).2.2
        = .error (s2l "Hugging Face API error (Status 503): None") :=
  ⟨rfl, rfl, rfl,
   (c6_hf_retry [] hfRespLoading (.ok hfRespRetryFail) (jint 30) rfl rfl).1,
   (c6_hf_retry [] hfRespLoading (.ok hfRespRetryFail) (jint 30) rfl rfl).2.1,
   (c6_hf_retry [] hfRespLoading (.ok hfRespRetryFail) (jint 30) rfl rfl).2.2.2.2.2
     hfRespRetryFail _ rfl rfl⟩

/-- Claim C7 evaluated at its failing input: every initialisation fails
and `list_models` *succeeds*, yet the raised message is the generic one
— it names the configured model and the last error but not the
enumerated models, because the actionable raise sits inside its own
`try` and is swallowed by the bare `except`. -/
theorem c7_enumeration_swallowed :
    initializeModel (s2l "models/custom") c7Create c7Models
      = .error (s2l "Gemini model " ++ sqm ++ s2l "models/custom" ++ sqm
          ++ s2l " not found. Error: 404 model not found. Try: models/gemini-2.0-flash")
    ∧ hasSub (s2l "Available models")
        (initErrText (initializeModel (s2l "models/custom") c7Create c7Models)) = false
    ∧ hasSub (s2l "models/a")
        (initErrText (initializeModel (s2l "models/custom") c7Create c7Models)) = false
    ∧ hasSub (s2l "models/custom")
        (initErrText (initializeModel (s2l "models/custom") c7Create c7Models)) = true
    ∧ hasSub (s2l "404 model not found")
        (initErrText (initializeModel (s2l "models/custom") c7Create c7Models)) = true
    ∧ isErrorB (initializeModel (s2l "models/custom") c7Create c7Models) = true :=
  ⟨rfl, by decide, by decide, by decide, by decide, rfl⟩
